import Mathlib

/-!
Shallow embedding of the guest-response validation and aggregation logic of
the wedding-RSVP application, together with theorems settling the spec's
claims about it.

Sources embedded:
  * `validateForm` from `src/app/rsvp/[token]/page.tsx` (the RSVP form page);
  * `calculateStats`, `getStatsDetails`, `getAccommodationDetails` from the
    admin dashboard page;
  * the `POST` handler of `src/app/api/rsvp/route.ts`.
-/

namespace Rsvp

/-- A guest row (`invites` table), as selected by the RSVP form and the
admin dashboard: tri-state answers are `Option Bool` (`none` = unanswered,
i.e. SQL NULL / JS `null`). -/
structure Invite where
  id : Nat
  nom : Option String
  mairie : Option Bool
  cocktail : Option Bool
  chateau : Option Bool
  brunch : Option Bool
  autorisation_ia : Option Bool
  fk_invitation : String
deriving DecidableEq

/-- An invitation row (`invitation` table) as used by the RSVP form page. -/
structure Invitation where
  id : String
  nom : Option String
  type : Option String
  regime : Option String
  allergie : Option String
  hebergement : Option Bool
  herbergement_nombre : Option Int
  link_music : Option String
  confirmed_at : Option String
deriving DecidableEq

/-- The distinct failure alerts `validateForm` can raise, in source order.
Each guest-level alert carries the guest's `nom` (the source interpolates
`invite.nom || "l'invité"` into the alert text). -/
inductive VError where
  | missingMairie (nom : Option String)
  | missingCocktail (nom : Option String)
  | missingChateau (nom : Option String)
  | missingIA (nom : Option String)
  | missingHebergement
  | missingHebergementCount
deriving DecidableEq

/-- First loop of `validateForm`: for each guest in order, alert if `mairie`
is null, then if `cocktail` is null. -/
def checkMairieCocktail : List Invite → Option VError
  | [] => none
  | g :: gs =>
    if g.mairie = none then some (VError.missingMairie g.nom)
    else if g.cocktail = none then some (VError.missingCocktail g.nom)
    else checkMairieCocktail gs

/-- Second loop of `validateForm`: alert if any guest's `chateau` is null.
Note: this loop is NOT guarded by the invitation type in the source. -/
def checkChateau : List Invite → Option VError
  | [] => none
  | g :: gs =>
    if g.chateau = none then some (VError.missingChateau g.nom)
    else checkChateau gs

/-- Third loop of `validateForm`: alert if any guest's `autorisation_ia`
is null. -/
def checkIA : List Invite → Option VError
  | [] => none
  | g :: gs =>
    if g.autorisation_ia = none then some (VError.missingIA g.nom)
    else checkIA gs

/-- The headcount test of `validateForm`:
`!invitation.herbergement_nombre || invitation.herbergement_nombre <= 0`
(JS falsiness: `null` and `0` are falsy; then the explicit `<= 0`). -/
def hebCountInvalid : Option Int → Bool
  | none => true
  | some n => n == 0 || decide (n ≤ 0)

/-- `validateForm` from the RSVP form page, returning `none` where the source
returns `true` (valid) and `some e` identifying the alert where the source
returns `false`. The mairie/cocktail loop runs only when the invitation type
is `full` or `partial-mairie` (`isMailleInvited` in the source); the château
and IA loops run for every type; then the accommodation flag and headcount
checks on the invitation. -/
def validateForm (inv : Invitation) (gs : List Invite) : Option VError :=
  let isMailleInvited := inv.type = some "full" ∨ inv.type = some "partial-mairie"
  match (if isMailleInvited then checkMairieCocktail gs else none) with
  | some e => some e
  | none =>
    match checkChateau gs with
    | some e => some e
    | none =>
      match checkIA gs with
      | some e => some e
      | none =>
        if inv.hebergement = none then some VError.missingHebergement
        else if inv.hebergement = some true ∧ hebCountInvalid inv.herbergement_nombre then
          some VError.missingHebergementCount
        else none

/-- The exact condition under which the embedded `validateForm` fails,
stated declaratively (to be proved equivalent to `validateForm ≠ none`):
château is required for EVERY invitation type. -/
def failPredCode (inv : Invitation) (gs : List Invite) : Prop :=
  ((inv.type = some "full" ∨ inv.type = some "partial-mairie") ∧
    ∃ g ∈ gs, g.mairie = none ∨ g.cocktail = none)
  ∨ (∃ g ∈ gs, g.chateau = none)
  ∨ (∃ g ∈ gs, g.autorisation_ia = none)
  ∨ inv.hebergement = none
  ∨ (inv.hebergement = some true ∧
      (inv.herbergement_nombre = none ∨ ∃ n, inv.herbergement_nombre = some n ∧ n ≤ 0))

instance (inv : Invitation) (gs : List Invite) : Decidable (failPredCode inv gs) := by
  unfold failPredCode; infer_instance

/-- Modelled from the spec (§4.2 table): the failure condition the spec
claims for `validate`, where château is required only for types `full` and
`partial-chateau`. Used to compare against the behaviour of the source's
`validateForm`. -/
def failPredSpec (inv : Invitation) (gs : List Invite) : Prop :=
  ((inv.type = some "full" ∨ inv.type = some "partial-mairie") ∧
    ∃ g ∈ gs, g.mairie = none ∨ g.cocktail = none)
  ∨ ((inv.type = some "full" ∨ inv.type = some "partial-chateau") ∧
    ∃ g ∈ gs, g.chateau = none)
  ∨ (∃ g ∈ gs, g.autorisation_ia = none)
  ∨ inv.hebergement = none
  ∨ (inv.hebergement = some true ∧
      (inv.herbergement_nombre = none ∨ ∃ n, inv.herbergement_nombre = some n ∧ n ≤ 0))

instance (inv : Invitation) (gs : List Invite) : Decidable (failPredSpec inv gs) := by
  unfold failPredSpec; infer_instance

/-! ## Concrete example inputs -/

/-- A guest of a `partial-mairie` invitation who answered the town-hall and
cocktail questions (going to the mairie, skipping the cocktail) but left the
château question unanswered. -/
def guestNoChateau : Invite :=
  { id := 1, nom := some "Alice", mairie := some true, cocktail := some false
    chateau := none, brunch := none, autorisation_ia := some true
    fk_invitation := "inv1" }

/-- The same guest with the château question answered (not attending). -/
def guestChateauNo : Invite :=
  { guestNoChateau with chateau := some false }

/-- A `partial-mairie` invitation with the accommodation question declined
(so the headcount is not needed). -/
def invPartialMairie : Invitation :=
  { id := "inv1", nom := some "Famille A", type := some "partial-mairie"
    regime := none, allergie := none, hebergement := some false
    herbergement_nombre := none, link_music := none, confirmed_at := none }

/-! ## Admin dashboard: aggregation (`calculateStats`) and detail queries -/

/-- An invitation as fetched by the admin dashboard (`InvitationData`):
the invitation row plus its `url` and the nested list of its guests
(insertion order preserved). -/
structure InvitationData where
  id : String
  nom : Option String
  type : Option String
  regime : Option String
  allergie : Option String
  hebergement : Option Bool
  herbergement_nombre : Option Int
  link_music : Option String
  confirmed_at : Option String
  url : Option String
  invites : List Invite
deriving DecidableEq

/-- One `{accepted, refused, total}` counter of the dashboard statistics. -/
structure Counter where
  accepted : Nat
  refused : Nat
  total : Nat
deriving DecidableEq

/-- One entry of the `regimes` grouping: dietary-regime string, member
count, and the member invitations' names (`inv.nom || ""`), in insertion
order (a JS object keyed by the regime string). -/
structure RegimeEntry where
  name : String
  count : Nat
  invitations : List String
deriving DecidableEq

/-- The accumulator of `calculateStats`. -/
structure Stats where
  complete : Counter
  mairie : Counter
  chateau : Counter
  accommodation : Int
  regimes : List RegimeEntry
deriving DecidableEq

/-- One three-line counting block of `calculateStats`:
`total += 1; if (ans === true) accepted += 1; if (ans === false) refused += 1`. -/
def countAnswer (c : Counter) (ans : Option Bool) : Counter :=
  { accepted := c.accepted + (if ans = some true then 1 else 0)
    refused := c.refused + (if ans = some false then 1 else 0)
    total := c.total + 1 }

/-- Per-guest step of `calculateStats`: the COMPLÈTE block (type `full`
only, château answer), the MAIRIE block (type `full` or `partial-mairie`,
mairie answer), and the CHÂTEAU block (type `full` or `partial-chateau`,
château answer), in source order. -/
def statsAddGuest (typ : Option String) (g : Invite) (s : Stats) : Stats :=
  let s1 := if typ = some "full" then
      { s with complete := countAnswer s.complete g.chateau } else s
  let s2 := if typ = some "full" ∨ typ = some "partial-mairie" then
      { s1 with mairie := countAnswer s1.mairie g.mairie } else s1
  if typ = some "full" ∨ typ = some "partial-chateau" then
    { s2 with chateau := countAnswer s2.chateau g.chateau } else s2

/-- The accommodation contribution `inv.herbergement_nombre || 0`
(JS: `null` and `0` are falsy, so both yield `0`). -/
def hebNombreOrZero : Option Int → Int
  | none => 0
  | some n => if n = 0 then 0 else n

/-- The regime-grouping step of `calculateStats`: create the key's entry
on first sight, then `count += 1` and push `inv.nom || ""`. -/
def addRegime (regs : List RegimeEntry) (r : String) (nom : Option String) : List RegimeEntry :=
  if regs.any (fun e => e.name == r) then
    regs.map (fun e =>
      if e.name == r then
        { e with count := e.count + 1, invitations := e.invitations ++ [nom.getD ""] }
      else e)
  else regs ++ [{ name := r, count := 1, invitations := [nom.getD ""] }]

/-- Per-invitation step of `calculateStats`: fold the guest blocks over
`inv.invites`, then the accommodation count (only when `hebergement` is
exactly `true`), then the regime grouping (only when `regime` is non-null
and non-blank after trimming). -/
def statsAddInvitation (s : Stats) (inv : InvitationData) : Stats :=
  let s1 := inv.invites.foldl (fun s g => statsAddGuest inv.type g s) s
  let s2 := if inv.hebergement = some true then
      { s1 with accommodation := s1.accommodation + hebNombreOrZero inv.herbergement_nombre }
    else s1
  match inv.regime with
  | some r => if r.trim ≠ "" then { s2 with regimes := addRegime s2.regimes r inv.nom } else s2
  | none => s2

/-- The all-zero initial value of the `stats` accumulator. -/
def initStats : Stats :=
  { complete := ⟨0, 0, 0⟩, mairie := ⟨0, 0, 0⟩, chateau := ⟨0, 0, 0⟩
    accommodation := 0, regimes := [] }

/-- `calculateStats` from the admin dashboard: one pass over all
invitations and their nested guests. -/
def calculateStats (invs : List InvitationData) : Stats :=
  invs.foldl statsAddInvitation initStats

/-- The flattened `(invitation type, guest)` pairs visited by the nested
`forEach` loops, in visit order. -/
def guestPairs (invs : List InvitationData) : List (Option String × Invite) :=
  invs.flatMap (fun inv => inv.invites.map (fun g => (inv.type, g)))

/-- `inv.type === "full"`: the guard of the COMPLÈTE block. -/
def isFullType (t : Option String) : Bool := t == some "full"

/-- `inv.type === "full" || inv.type === "partial-mairie"`: the guard of the
MAIRIE block. -/
def isMairieType (t : Option String) : Bool :=
  t == some "full" || t == some "partial-mairie"

/-- `inv.type === "full" || inv.type === "partial-chateau"`: the guard of the
CHÂTEAU block. -/
def isChateauType (t : Option String) : Bool :=
  t == some "full" || t == some "partial-chateau"

/-- The two dashboard detail categories of `getStatsDetails`. -/
inductive DetailType where
  | mairie
  | chateau
deriving DecidableEq

/-- The two dashboard detail statuses of `getStatsDetails`. -/
inductive DetailStatus where
  | accepted
  | refused
deriving DecidableEq

/-- One entry of the guest detail list: guest name (`invite.nom || "Invité"`)
and invitation name (`inv.nom || "Invitation"`). -/
structure DetailPerson where
  nom : String
  invitationNom : String
deriving DecidableEq

/-- The `include` condition of `getStatsDetails` for one guest, mirroring
the four if-branches of the source. -/
def detailInclude (t : DetailType) (st : DetailStatus) (typ : Option String) (g : Invite) : Bool :=
  match t with
  | DetailType.mairie =>
    decide (((typ = some "full" ∨ typ = some "partial-mairie") ∧
              st = DetailStatus.accepted ∧ g.mairie = some true)
          ∨ ((typ = some "full" ∨ typ = some "partial-mairie") ∧
              st = DetailStatus.refused ∧ g.mairie = some false))
  | DetailType.chateau =>
    decide (((typ = some "full" ∨ typ = some "partial-chateau") ∧
              st = DetailStatus.accepted ∧ g.chateau = some true)
          ∨ ((typ = some "full" ∨ typ = some "partial-chateau") ∧
              st = DetailStatus.refused ∧ g.chateau = some false))

/-- Inner `forEach` of `getStatsDetails`: push the guests of one invitation
that satisfy the `include` condition, in list order. -/
def detailsOfInvites (t : DetailType) (st : DetailStatus) (typ : Option String)
    (invNom : Option String) : List Invite → List DetailPerson
  | [] => []
  | g :: gs =>
    (if detailInclude t st typ g then
        [{ nom := g.nom.getD "Invité", invitationNom := invNom.getD "Invitation" }]
      else [])
    ++ detailsOfInvites t st typ invNom gs

/-- `getStatsDetails` from the admin dashboard: the guests whose answer for
the given category is the given status, across all invitations. -/
def getStatsDetails (t : DetailType) (st : DetailStatus) : List InvitationData → List DetailPerson
  | [] => []
  | inv :: invs =>
    detailsOfInvites t st inv.type inv.nom inv.invites ++ getStatsDetails t st invs

/-- One entry of the accommodation detail list: invitation name and
headcount (`inv.herbergement_nombre || 0`). -/
structure AccommodationEntry where
  nom : String
  nombre : Int
deriving DecidableEq

/-- `getAccommodationDetails` from the admin dashboard: the invitations with
accommodation accepted, with their headcounts. -/
def getAccommodationDetails : List InvitationData → List AccommodationEntry
  | [] => []
  | inv :: invs =>
    (if inv.hebergement = some true then
        [{ nom := inv.nom.getD "Invitation", nombre := hebNombreOrZero inv.herbergement_nombre }]
      else [])
    ++ getAccommodationDetails invs

/-- A `full`-type invitation for the dashboard examples: one guest who
accepted everything, accommodation accepted for 3. -/
def dashInvFull : InvitationData :=
  { id := "d1", nom := some "Famille B", type := some "full", regime := some "vegan"
    allergie := none, hebergement := some true, herbergement_nombre := some 3
    link_music := none, confirmed_at := none, url := none
    invites := [{ id := 3, nom := some "Carol", mairie := some true, cocktail := some true
                  chateau := some true, brunch := some true, autorisation_ia := some true
                  fk_invitation := "d1" }] }

/-- A `partial-mairie` invitation for the dashboard examples: one guest who
refused the mairie, no accommodation answer. -/
def dashInvPM : InvitationData :=
  { id := "d2", nom := some "Famille C", type := some "partial-mairie", regime := none
    allergie := none, hebergement := none, herbergement_nombre := none
    link_music := none, confirmed_at := none, url := none
    invites := [{ id := 4, nom := some "Dan", mairie := some false, cocktail := some true
                  chateau := none, brunch := none, autorisation_ia := some false
                  fk_invitation := "d2" }] }

/-! ## The network-facing submission endpoint (`src/app/api/rsvp/route.ts`) -/

/-- A row of the flat `invites` table as the API route and
`src/types/invite.ts` see it: the row carries the token hash, the answer
fields and the confirmation timestamp. -/
structure StoredInvite where
  id : String
  token_hash : String
  mairie : Option Bool
  cocktail : Option Bool
  chateau : Option Bool
  regime : Option String
  allergie : Option String
  hebergement : Option Bool
  brunch : Option Bool
  confirmed_at : Option String
deriving DecidableEq

/-- The request body of the endpoint (`RSVPBody`): a token plus optional
fields; `none` models an absent (`undefined`) field. -/
structure RSVPBody where
  token : String
  mairie : Option Bool
  cocktail : Option Bool
  chateau : Option Bool
  regime : Option String
  allergie : Option String
  hebergement : Option Bool
  brunch : Option Bool
deriving DecidableEq

/-- An error reported by the external store, carrying its raw message. -/
structure StoreError where
  message : String
deriving DecidableEq

/-- The response body: either `{ error: <message> }` or `{ ok: true }`. -/
inductive ApiBody where
  | errorBody (message : String)
  | okBody
deriving DecidableEq

/-- An HTTP response of the endpoint: status code and JSON body
(`Response.json` defaults to status 200). -/
structure ApiResponse where
  status : Nat
  body : ApiBody
deriving DecidableEq

/-- A present body field overwrites the stored one; an absent
(`undefined`) field is dropped from the update payload and leaves the
stored value unchanged. -/
def patchField {α : Type} (b : Option α) (old : Option α) : Option α :=
  match b with
  | some v => some v
  | none => old

/-- The row update the endpoint sends: all supplied answer fields, plus
`confirmed_at` set to the current time unconditionally. -/
def applyPatch (body : RSVPBody) (now : String) (r : StoredInvite) : StoredInvite :=
  { r with
    mairie := patchField body.mairie r.mairie
    cocktail := patchField body.cocktail r.cocktail
    chateau := patchField body.chateau r.chateau
    regime := patchField body.regime r.regime
    allergie := patchField body.allergie r.allergie
    hebergement := patchField body.hebergement r.hebergement
    brunch := patchField body.brunch r.brunch
    confirmed_at := some now }

/-- The store update `update(...).eq("token_hash", tokenHash)`: patch every
row whose `token_hash` equals the computed digest, leave the rest alone.
Matching zero rows is not an error. -/
def runUpdate (table : List StoredInvite) (tokenHash : String) (body : RSVPBody)
    (now : String) : List StoredInvite :=
  table.map (fun r => if r.token_hash = tokenHash then applyPatch body now r else r)

/-- The `POST` handler: hash the token (`hashFn` abstracts the SHA-256 hex
digest), run the store update, and answer 500 with the raw store message on
error, `{ ok: true }` otherwise. `ioError` is the store's reported outcome
(a transient I/O failure, external to this model); on error the table is
unchanged. -/
def postRsvp (hashFn : String → String) (table : List StoredInvite) (body : RSVPBody)
    (now : String) (ioError : Option StoreError) : List StoredInvite × ApiResponse :=
  match ioError with
  | some e => (table, { status := 500, body := ApiBody.errorBody e.message })
  | none => (runUpdate table (hashFn body.token) body now, { status := 200, body := ApiBody.okBody })

/-- A stored row for the endpoint examples, with token hash `"HH"` and no
answers recorded. -/
def storedRow : StoredInvite :=
  { id := "r1", token_hash := "HH", mairie := none, cocktail := none
    chateau := none, regime := none, allergie := none, hebergement := none
    brunch := none, confirmed_at := none }

/-- A request body that omits every answer field. -/
def emptyBody : RSVPBody :=
  { token := "tok", mairie := none, cocktail := none, chateau := none
    regime := none, allergie := none, hebergement := none, brunch := none }

/-! ## Validator lemmas -/

theorem checkMairieCocktail_eq_none (gs : List Invite) :
    checkMairieCocktail gs = none ↔ ∀ g ∈ gs, ¬(g.mairie = none ∨ g.cocktail = none) := by
  induction gs with
  | nil => simp [checkMairieCocktail]
  | cons g gs ih =>
    by_cases h1 : g.mairie = none
    · simp [checkMairieCocktail, h1]
    · by_cases h2 : g.cocktail = none
      · simp [checkMairieCocktail, h1, h2]
      · simp [checkMairieCocktail, h1, h2, ih]

theorem checkChateau_eq_none (gs : List Invite) :
    checkChateau gs = none ↔ ∀ g ∈ gs, ¬ g.chateau = none := by
  induction gs with
  | nil => simp [checkChateau]
  | cons g gs ih =>
    by_cases h1 : g.chateau = none
    · simp [checkChateau, h1]
    · simp [checkChateau, h1, ih]

theorem checkIA_eq_none (gs : List Invite) :
    checkIA gs = none ↔ ∀ g ∈ gs, ¬ g.autorisation_ia = none := by
  induction gs with
  | nil => simp [checkIA]
  | cons g gs ih =>
    by_cases h1 : g.autorisation_ia = none
    · simp [checkIA, h1]
    · simp [checkIA, h1, ih]

theorem hebCountInvalid_iff (o : Option Int) :
    hebCountInvalid o = true ↔ o = none ∨ ∃ n, o = some n ∧ n ≤ 0 := by
  cases o with
  | none => simp [hebCountInvalid]
  | some n =>
    simp [hebCountInvalid]
    omega

theorem validateForm_none_iff_checks (inv : Invitation) (gs : List Invite) :
    validateForm inv gs = none ↔
      (((inv.type = some "full" ∨ inv.type = some "partial-mairie") →
          checkMairieCocktail gs = none)
        ∧ checkChateau gs = none
        ∧ checkIA gs = none
        ∧ ¬ inv.hebergement = none
        ∧ ¬(inv.hebergement = some true ∧ hebCountInvalid inv.herbergement_nombre)) := by
  by_cases hty : inv.type = some "full" ∨ inv.type = some "partial-mairie" <;>
    cases hmc : checkMairieCocktail gs <;>
    cases hcc : checkChateau gs <;>
    cases hia : checkIA gs <;>
    by_cases hheb : inv.hebergement = none <;>
    by_cases hcnt : inv.hebergement = some true ∧ hebCountInvalid inv.herbergement_nombre = true <;>
    simp_all [validateForm]

theorem validateForm_none_iff (inv : Invitation) (gs : List Invite) :
    validateForm inv gs = none ↔ ¬ failPredCode inv gs := by
  rw [validateForm_none_iff_checks]
  unfold failPredCode
  rw [checkMairieCocktail_eq_none, checkChateau_eq_none, checkIA_eq_none]
  constructor
  · rintro ⟨h1, h2, h3, h4, h5⟩
    rintro (⟨hty, g, hg, hor⟩ | ⟨g, hg, hch⟩ | ⟨g, hg, hia⟩ | hheb | ⟨htrue, hbad⟩)
    · exact h1 hty g hg hor
    · exact h2 g hg hch
    · exact h3 g hg hia
    · exact h4 hheb
    · exact h5 ⟨htrue, (hebCountInvalid_iff _).mpr hbad⟩
  · intro h
    refine ⟨?_, ?_, ?_, ?_, ?_⟩
    · intro hty g hg hor
      exact h (Or.inl ⟨hty, g, hg, hor⟩)
    · intro g hg hch
      exact h (Or.inr (Or.inl ⟨g, hg, hch⟩))
    · intro g hg hia
      exact h (Or.inr (Or.inr (Or.inl ⟨g, hg, hia⟩)))
    · intro hheb
      exact h (Or.inr (Or.inr (Or.inr (Or.inl hheb))))
    · rintro ⟨htrue, hbad⟩
      exact h (Or.inr (Or.inr (Or.inr (Or.inr
        ⟨htrue, (hebCountInvalid_iff _).mp hbad⟩))))

end Rsvp

/-- C1: the claim's required-field table (château required only for `full`
and `partial-chateau`) does not match the code: on a `partial-mairie`
invitation with mairie and cocktail answered, château unanswered, consent
answered and accommodation declined, `validateForm` fails although the
claimed failure condition does not hold. -/
theorem validateForm_spec_table_counterexample :
    Rsvp.validateForm Rsvp.invPartialMairie [Rsvp.guestNoChateau] ≠ none
      ∧ ¬ Rsvp.failPredSpec Rsvp.invPartialMairie [Rsvp.guestNoChateau] := by
  decide

/-- C1 (amended): `validateForm` fails if and only if some guest's mairie or
cocktail answer is missing while the type is `full` or `partial-mairie`, or
some guest's château answer is missing (for EVERY invitation type), or some
guest's auxiliary consent is missing, or the accommodation flag is
unanswered, or accommodation is accepted while the headcount is absent or
not positive. -/
theorem validateForm_fails_iff_code (inv : Rsvp.Invitation) (gs : List Rsvp.Invite) :
    Rsvp.validateForm inv gs ≠ none ↔ Rsvp.failPredCode inv gs := by
  rw [Ne, Rsvp.validateForm_none_iff, not_not]

/-- C2: the claim that the château field is never required for a
`partial-mairie` invitation is false: with one guest having
`mairie = true`, `cocktail = false`, château and brunch unanswered, consent
answered and accommodation declined, `validateForm` fails. -/
theorem validateForm_partial_mairie_counterexample :
    Rsvp.validateForm Rsvp.invPartialMairie [Rsvp.guestNoChateau] ≠ none := by
  decide

/-- C2 (amended): for a `partial-mairie` invitation with one guest whose
mairie answer is true and cocktail answer is false, consent answered and
accommodation declined, `validateForm` fails with the missing-château alert
when the guest's château field is unanswered, and succeeds as soon as the
château field is answered (brunch may stay unanswered). -/
theorem validateForm_partial_mairie_requires_chateau
    (inv : Rsvp.Invitation) (g : Rsvp.Invite)
    (hty : inv.type = some "partial-mairie")
    (hm : g.mairie = some true) (hc : g.cocktail = some false)
    (hia : g.autorisation_ia = some true) (hheb : inv.hebergement = some false) :
    (g.chateau = none →
      Rsvp.validateForm inv [g] = some (Rsvp.VError.missingChateau g.nom))
    ∧ (∀ b, g.chateau = some b → Rsvp.validateForm inv [g] = none) := by
  constructor
  · intro hch
    simp [Rsvp.validateForm, Rsvp.checkMairieCocktail, Rsvp.checkChateau,
      hty, hm, hc, hch]
  · intro b hch
    simp [Rsvp.validateForm, Rsvp.checkMairieCocktail, Rsvp.checkChateau,
      Rsvp.checkIA, hty, hm, hc, hch, hia, hheb]

/-- Witness for the amended C2, at the concrete `partial-mairie` scenario. -/
theorem validateForm_partial_mairie_requires_chateau_witness :
    Rsvp.validateForm Rsvp.invPartialMairie [Rsvp.guestNoChateau]
        = some (Rsvp.VError.missingChateau (some "Alice"))
      ∧ Rsvp.validateForm Rsvp.invPartialMairie [Rsvp.guestChateauNo] = none := by
  constructor
  · exact (validateForm_partial_mairie_requires_chateau Rsvp.invPartialMairie
      Rsvp.guestNoChateau rfl rfl rfl rfl rfl).1 rfl
  · exact (validateForm_partial_mairie_requires_chateau Rsvp.invPartialMairie
      Rsvp.guestChateauNo rfl rfl rfl rfl rfl).2 false rfl

/-- C6: when every guest tri-state field the code requires is answered and
the accommodation flag is accepted, `validateForm` fails with the
accommodation-count alert exactly when the headcount is absent, zero or
negative, and succeeds once the headcount is set to 2. -/
theorem validateForm_accommodation_count
    (inv : Rsvp.Invitation) (gs : List Rsvp.Invite)
    (hmc : (inv.type = some "full" ∨ inv.type = some "partial-mairie") →
      ∀ g ∈ gs, ¬(g.mairie = none ∨ g.cocktail = none))
    (hch : ∀ g ∈ gs, ¬ g.chateau = none)
    (hia : ∀ g ∈ gs, ¬ g.autorisation_ia = none)
    (hheb : inv.hebergement = some true) :
    ((inv.herbergement_nombre = none ∨ ∃ n, inv.herbergement_nombre = some n ∧ n ≤ 0) →
      Rsvp.validateForm inv gs = some Rsvp.VError.missingHebergementCount)
    ∧ Rsvp.validateForm { inv with herbergement_nombre := some 2 } gs = none := by
  constructor
  · intro hbad
    have h1 : (inv.type = some "full" ∨ inv.type = some "partial-mairie") →
        Rsvp.checkMairieCocktail gs = none := by
      intro hty
      exact (Rsvp.checkMairieCocktail_eq_none gs).mpr (hmc hty)
    have h2 : Rsvp.checkChateau gs = none := (Rsvp.checkChateau_eq_none gs).mpr hch
    have h3 : Rsvp.checkIA gs = none := (Rsvp.checkIA_eq_none gs).mpr hia
    have h4 : Rsvp.hebCountInvalid inv.herbergement_nombre = true :=
      (Rsvp.hebCountInvalid_iff _).mpr hbad
    by_cases hty : inv.type = some "full" ∨ inv.type = some "partial-mairie" <;>
      simp [Rsvp.validateForm, hty, h1, h2, h3, h4, hheb]
  · rw [Rsvp.validateForm_none_iff_checks]
    refine ⟨?_, (Rsvp.checkChateau_eq_none gs).mpr hch,
      (Rsvp.checkIA_eq_none gs).mpr hia, by simp [hheb], ?_⟩
    · intro hty
      exact (Rsvp.checkMairieCocktail_eq_none gs).mpr (hmc hty)
    · rintro ⟨-, hinv⟩
      simp [Rsvp.hebCountInvalid] at hinv

/-- Witness for C6: a `full`-type invitation with one fully answered guest;
a null headcount yields the accommodation-count alert, headcount 2 passes. -/
theorem validateForm_accommodation_count_witness :
    Rsvp.validateForm
        { id := "i2", nom := some "B", type := some "full", regime := none
          allergie := none, hebergement := some true, herbergement_nombre := none
          link_music := none, confirmed_at := none }
        [{ id := 2, nom := some "Bob", mairie := some true, cocktail := some true
           chateau := some true, brunch := some true, autorisation_ia := some false
           fk_invitation := "i2" }]
      = some Rsvp.VError.missingHebergementCount
    ∧ Rsvp.validateForm
        { id := "i2", nom := some "B", type := some "full", regime := none
          allergie := none, hebergement := some true, herbergement_nombre := some 2
          link_music := none, confirmed_at := none }
        [{ id := 2, nom := some "Bob", mairie := some true, cocktail := some true
           chateau := some true, brunch := some true, autorisation_ia := some false
           fk_invitation := "i2" }] = none := by
  constructor
  · exact (validateForm_accommodation_count _ _ (by decide) (by decide) (by decide)
      rfl).1 (Or.inl rfl)
  · exact (validateForm_accommodation_count
      { id := "i2", nom := some "B", type := some "full", regime := none
        allergie := none, hebergement := some true, herbergement_nombre := none
        link_music := none, confirmed_at := none }
      [{ id := 2, nom := some "Bob", mairie := some true, cocktail := some true
         chateau := some true, brunch := some true, autorisation_ia := some false
         fk_invitation := "i2" }] (by decide) (by decide) (by decide) rfl).2

/-! ## Aggregator lemmas -/

namespace Rsvp

theorem statsAddGuest_complete (typ : Option String) (g : Invite) (s : Stats) :
    (statsAddGuest typ g s).complete =
      if typ = some "full" then countAnswer s.complete g.chateau else s.complete := by
  simp only [statsAddGuest]
  split_ifs <;> rfl

theorem statsAddGuest_mairie (typ : Option String) (g : Invite) (s : Stats) :
    (statsAddGuest typ g s).mairie =
      if typ = some "full" ∨ typ = some "partial-mairie" then
        countAnswer s.mairie g.mairie
      else s.mairie := by
  simp only [statsAddGuest]
  split_ifs <;> rfl

theorem statsAddGuest_chateau (typ : Option String) (g : Invite) (s : Stats) :
    (statsAddGuest typ g s).chateau =
      if typ = some "full" ∨ typ = some "partial-chateau" then
        countAnswer s.chateau g.chateau
      else s.chateau := by
  simp only [statsAddGuest]
  split_ifs <;> rfl

theorem statsAddGuest_accommodation (typ : Option String) (g : Invite) (s : Stats) :
    (statsAddGuest typ g s).accommodation = s.accommodation := by
  simp only [statsAddGuest]
  split_ifs <;> rfl

theorem statsAddGuest_regimes (typ : Option String) (g : Invite) (s : Stats) :
    (statsAddGuest typ g s).regimes = s.regimes := by
  simp only [statsAddGuest]
  split_ifs <;> rfl

theorem foldGuests_complete (typ : Option String) (gs : List Invite) (s : Stats) :
    (gs.foldl (fun acc g => statsAddGuest typ g acc) s).complete =
      if typ = some "full" then
        { accepted := s.complete.accepted + gs.countP (fun g => decide (g.chateau = some true))
          refused := s.complete.refused + gs.countP (fun g => decide (g.chateau = some false))
          total := s.complete.total + gs.length }
      else s.complete := by
  induction gs generalizing s with
  | nil => split_ifs <;> simp
  | cons g gs ih =>
    rw [List.foldl_cons, ih]
    by_cases hf : typ = some "full"
    · by_cases h1 : g.chateau = some true <;> by_cases h2 : g.chateau = some false <;>
        simp_all [statsAddGuest_complete, countAnswer, List.countP_cons] <;> omega
    · simp [hf, statsAddGuest_complete]

theorem foldGuests_mairie (typ : Option String) (gs : List Invite) (s : Stats) :
    (gs.foldl (fun acc g => statsAddGuest typ g acc) s).mairie =
      if typ = some "full" ∨ typ = some "partial-mairie" then
        { accepted := s.mairie.accepted + gs.countP (fun g => decide (g.mairie = some true))
          refused := s.mairie.refused + gs.countP (fun g => decide (g.mairie = some false))
          total := s.mairie.total + gs.length }
      else s.mairie := by
  induction gs generalizing s with
  | nil => split_ifs <;> simp
  | cons g gs ih =>
    rw [List.foldl_cons, ih]
    by_cases hf : typ = some "full" ∨ typ = some "partial-mairie"
    · by_cases h1 : g.mairie = some true <;> by_cases h2 : g.mairie = some false <;>
        simp_all [statsAddGuest_mairie, countAnswer, List.countP_cons] <;> omega
    · simp [hf, statsAddGuest_mairie]

theorem foldGuests_chateau (typ : Option String) (gs : List Invite) (s : Stats) :
    (gs.foldl (fun acc g => statsAddGuest typ g acc) s).chateau =
      if typ = some "full" ∨ typ = some "partial-chateau" then
        { accepted := s.chateau.accepted + gs.countP (fun g => decide (g.chateau = some true))
          refused := s.chateau.refused + gs.countP (fun g => decide (g.chateau = some false))
          total := s.chateau.total + gs.length }
      else s.chateau := by
  induction gs generalizing s with
  | nil => split_ifs <;> simp
  | cons g gs ih =>
    rw [List.foldl_cons, ih]
    by_cases hf : typ = some "full" ∨ typ = some "partial-chateau"
    · by_cases h1 : g.chateau = some true <;> by_cases h2 : g.chateau = some false <;>
        simp_all [statsAddGuest_chateau, countAnswer, List.countP_cons] <;> omega
    · simp [hf, statsAddGuest_chateau]

theorem foldGuests_accommodation (typ : Option String) (gs : List Invite) (s : Stats) :
    (gs.foldl (fun acc g => statsAddGuest typ g acc) s).accommodation = s.accommodation := by
  induction gs generalizing s with
  | nil => rfl
  | cons g gs ih => rw [List.foldl_cons, ih, statsAddGuest_accommodation]

end Rsvp

namespace Rsvp

theorem statsAddInvitation_complete (s : Stats) (inv : InvitationData) :
    (statsAddInvitation s inv).complete =
      (inv.invites.foldl (fun acc g => statsAddGuest inv.type g acc) s).complete := by
  simp only [statsAddInvitation]
  split <;> split_ifs <;> rfl

theorem statsAddInvitation_mairie (s : Stats) (inv : InvitationData) :
    (statsAddInvitation s inv).mairie =
      (inv.invites.foldl (fun acc g => statsAddGuest inv.type g acc) s).mairie := by
  simp only [statsAddInvitation]
  split <;> split_ifs <;> rfl

theorem statsAddInvitation_chateau (s : Stats) (inv : InvitationData) :
    (statsAddInvitation s inv).chateau =
      (inv.invites.foldl (fun acc g => statsAddGuest inv.type g acc) s).chateau := by
  simp only [statsAddInvitation]
  split <;> split_ifs <;> rfl

theorem statsAddInvitation_accommodation (s : Stats) (inv : InvitationData) :
    (statsAddInvitation s inv).accommodation =
      s.accommodation +
        (if inv.hebergement = some true then hebNombreOrZero inv.herbergement_nombre else 0) := by
  simp only [statsAddInvitation]
  split <;> split_ifs <;> simp [foldGuests_accommodation]

theorem guestPairs_cons (inv : InvitationData) (invs : List InvitationData) :
    guestPairs (inv :: invs) =
      inv.invites.map (fun g => (inv.type, g)) ++ guestPairs invs := by
  simp [guestPairs]

theorem foldInvs_complete (invs : List InvitationData) (s : Stats) :
    (invs.foldl statsAddInvitation s).complete =
      { accepted := s.complete.accepted +
          (guestPairs invs).countP (fun p => decide (p.1 = some "full" ∧ p.2.chateau = some true))
        refused := s.complete.refused +
          (guestPairs invs).countP (fun p => decide (p.1 = some "full" ∧ p.2.chateau = some false))
        total := s.complete.total +
          (guestPairs invs).countP (fun p => decide (p.1 = some "full")) } := by
  induction invs generalizing s with
  | nil => simp [guestPairs]
  | cons inv invs ih =>
    rw [List.foldl_cons, ih, statsAddInvitation_complete, foldGuests_complete,
      guestPairs_cons]
    by_cases hf : inv.type = some "full"
    · simp [hf, List.countP_append, List.countP_map, Function.comp_def]
      omega
    · simp [hf, List.countP_append, List.countP_map, Function.comp_def]

theorem foldInvs_mairie (invs : List InvitationData) (s : Stats) :
    (invs.foldl statsAddInvitation s).mairie =
      { accepted := s.mairie.accepted +
          (guestPairs invs).countP (fun p =>
            decide ((p.1 = some "full" ∨ p.1 = some "partial-mairie") ∧ p.2.mairie = some true))
        refused := s.mairie.refused +
          (guestPairs invs).countP (fun p =>
            decide ((p.1 = some "full" ∨ p.1 = some "partial-mairie") ∧ p.2.mairie = some false))
        total := s.mairie.total +
          (guestPairs invs).countP (fun p =>
            decide (p.1 = some "full" ∨ p.1 = some "partial-mairie")) } := by
  induction invs generalizing s with
  | nil => simp [guestPairs]
  | cons inv invs ih =>
    rw [List.foldl_cons, ih, statsAddInvitation_mairie, foldGuests_mairie,
      guestPairs_cons]
    by_cases h1 : inv.type = some "full" <;>
      by_cases h2 : inv.type = some "partial-mairie" <;>
      simp [h1, h2, List.countP_append, List.countP_map, Function.comp_def] <;> omega

theorem foldInvs_chateau (invs : List InvitationData) (s : Stats) :
    (invs.foldl statsAddInvitation s).chateau =
      { accepted := s.chateau.accepted +
          (guestPairs invs).countP (fun p =>
            decide ((p.1 = some "full" ∨ p.1 = some "partial-chateau") ∧ p.2.chateau = some true))
        refused := s.chateau.refused +
          (guestPairs invs).countP (fun p =>
            decide ((p.1 = some "full" ∨ p.1 = some "partial-chateau") ∧ p.2.chateau = some false))
        total := s.chateau.total +
          (guestPairs invs).countP (fun p =>
            decide (p.1 = some "full" ∨ p.1 = some "partial-chateau")) } := by
  induction invs generalizing s with
  | nil => simp [guestPairs]
  | cons inv invs ih =>
    rw [List.foldl_cons, ih, statsAddInvitation_chateau, foldGuests_chateau,
      guestPairs_cons]
    by_cases h1 : inv.type = some "full" <;>
      by_cases h2 : inv.type = some "partial-chateau" <;>
      simp [h1, h2, List.countP_append, List.countP_map, Function.comp_def] <;> omega

theorem foldInvs_accommodation (invs : List InvitationData) (s : Stats) :
    (invs.foldl statsAddInvitation s).accommodation =
      s.accommodation +
        (invs.map (fun inv =>
          if inv.hebergement = some true then hebNombreOrZero inv.herbergement_nombre
          else 0)).sum := by
  induction invs generalizing s with
  | nil => simp
  | cons inv invs ih =>
    rw [List.foldl_cons, ih, statsAddInvitation_accommodation]
    simp [add_assoc]

theorem hebNombreOrZero_eq_getD (o : Option Int) : hebNombreOrZero o = o.getD 0 := by
  cases o with
  | none => rfl
  | some n =>
    simp only [hebNombreOrZero, Option.getD_some]
    split_ifs with h
    · omega
    · rfl

end Rsvp

namespace Rsvp

theorem sum_ite_eq_filter_sum (invs : List InvitationData) :
    (invs.map (fun inv =>
      if inv.hebergement = some true then hebNombreOrZero inv.herbergement_nombre
      else 0)).sum
      = ((invs.filter (fun inv => inv.hebergement == some true)).map
          (fun inv => inv.herbergement_nombre.getD 0)).sum := by
  simp only [hebNombreOrZero_eq_getD]
  induction invs with
  | nil => rfl
  | cons inv invs ih =>
    by_cases hb : inv.hebergement = some true <;>
      simp [List.filter_cons, hb, ih]

end Rsvp

/-- C3: each aggregator counter is exactly a count over the flattened
`(invitation type, guest)` pairs: a guest contributes once to a category's
`total` exactly when its invitation's type is applicable to the category
(`full` only for the full-château/"complete" counters; `full` or
`partial-mairie` for mairie; `full` or `partial-chateau` for château); it
contributes to `accepted` exactly when the relevant answer is exactly
`true` and to `refused` exactly when it is exactly `false`, so an
unanswered answer contributes to `total` only. -/
theorem calculateStats_counts_characterization (invs : List Rsvp.InvitationData) :
    ((Rsvp.calculateStats invs).complete.accepted =
        (Rsvp.guestPairs invs).countP (fun p =>
          decide (p.1 = some "full" ∧ p.2.chateau = some true)))
    ∧ ((Rsvp.calculateStats invs).complete.refused =
        (Rsvp.guestPairs invs).countP (fun p =>
          decide (p.1 = some "full" ∧ p.2.chateau = some false)))
    ∧ ((Rsvp.calculateStats invs).complete.total =
        (Rsvp.guestPairs invs).countP (fun p => decide (p.1 = some "full")))
    ∧ ((Rsvp.calculateStats invs).mairie.accepted =
        (Rsvp.guestPairs invs).countP (fun p =>
          decide ((p.1 = some "full" ∨ p.1 = some "partial-mairie") ∧ p.2.mairie = some true)))
    ∧ ((Rsvp.calculateStats invs).mairie.refused =
        (Rsvp.guestPairs invs).countP (fun p =>
          decide ((p.1 = some "full" ∨ p.1 = some "partial-mairie") ∧ p.2.mairie = some false)))
    ∧ ((Rsvp.calculateStats invs).mairie.total =
        (Rsvp.guestPairs invs).countP (fun p =>
          decide (p.1 = some "full" ∨ p.1 = some "partial-mairie")))
    ∧ ((Rsvp.calculateStats invs).chateau.accepted =
        (Rsvp.guestPairs invs).countP (fun p =>
          decide ((p.1 = some "full" ∨ p.1 = some "partial-chateau") ∧ p.2.chateau = some true)))
    ∧ ((Rsvp.calculateStats invs).chateau.refused =
        (Rsvp.guestPairs invs).countP (fun p =>
          decide ((p.1 = some "full" ∨ p.1 = some "partial-chateau") ∧ p.2.chateau = some false)))
    ∧ ((Rsvp.calculateStats invs).chateau.total =
        (Rsvp.guestPairs invs).countP (fun p =>
          decide (p.1 = some "full" ∨ p.1 = some "partial-chateau"))) := by
  refine ⟨?_, ?_, ?_, ?_, ?_, ?_, ?_, ?_, ?_⟩ <;>
    simp [Rsvp.calculateStats, Rsvp.foldInvs_complete, Rsvp.foldInvs_mairie,
      Rsvp.foldInvs_chateau, Rsvp.initStats]

/-- C4: aggregation is invariant under permutation of the invitation
collection: permuted input yields the same complete, mairie and château
counters and the same accommodation total. -/
theorem calculateStats_perm_invariant (invs1 invs2 : List Rsvp.InvitationData)
    (h : List.Perm invs1 invs2) :
    (Rsvp.calculateStats invs1).complete = (Rsvp.calculateStats invs2).complete
    ∧ (Rsvp.calculateStats invs1).mairie = (Rsvp.calculateStats invs2).mairie
    ∧ (Rsvp.calculateStats invs1).chateau = (Rsvp.calculateStats invs2).chateau
    ∧ (Rsvp.calculateStats invs1).accommodation
        = (Rsvp.calculateStats invs2).accommodation := by
  have hg : List.Perm (Rsvp.guestPairs invs1) (Rsvp.guestPairs invs2) :=
    h.flatMap_right _
  have hsum := (h.map (fun inv =>
    if inv.hebergement = some true then Rsvp.hebNombreOrZero inv.herbergement_nombre
    else 0)).sum_eq
  refine ⟨?_, ?_, ?_, ?_⟩
  · simp only [Rsvp.calculateStats, Rsvp.foldInvs_complete]
    simp [hg.countP_eq]
  · simp only [Rsvp.calculateStats, Rsvp.foldInvs_mairie]
    simp [hg.countP_eq]
  · simp only [Rsvp.calculateStats, Rsvp.foldInvs_chateau]
    simp [hg.countP_eq]
  · simp only [Rsvp.calculateStats, Rsvp.foldInvs_accommodation]
    omega

/-- Witness for C4: swapping a two-invitation collection leaves every
counter and the accommodation total unchanged. -/
theorem calculateStats_perm_invariant_witness :
    (Rsvp.calculateStats [Rsvp.dashInvFull, Rsvp.dashInvPM]).complete
        = (Rsvp.calculateStats [Rsvp.dashInvPM, Rsvp.dashInvFull]).complete
    ∧ (Rsvp.calculateStats [Rsvp.dashInvFull, Rsvp.dashInvPM]).mairie
        = (Rsvp.calculateStats [Rsvp.dashInvPM, Rsvp.dashInvFull]).mairie
    ∧ (Rsvp.calculateStats [Rsvp.dashInvFull, Rsvp.dashInvPM]).chateau
        = (Rsvp.calculateStats [Rsvp.dashInvPM, Rsvp.dashInvFull]).chateau
    ∧ (Rsvp.calculateStats [Rsvp.dashInvFull, Rsvp.dashInvPM]).accommodation
        = (Rsvp.calculateStats [Rsvp.dashInvPM, Rsvp.dashInvFull]).accommodation :=
  calculateStats_perm_invariant _ _
    (List.Perm.swap Rsvp.dashInvPM Rsvp.dashInvFull [])

/-- C5: the aggregator's accommodation total is the sum of the headcounts
over exactly the invitations whose accommodation flag is exactly `true`,
a null headcount contributing 0; flags `false` or unanswered contribute
nothing. -/
theorem calculateStats_accommodation_total (invs : List Rsvp.InvitationData) :
    (Rsvp.calculateStats invs).accommodation =
      ((invs.filter (fun inv => inv.hebergement == some true)).map
        (fun inv => inv.herbergement_nombre.getD 0)).sum := by
  simp only [Rsvp.calculateStats, Rsvp.foldInvs_accommodation,
    Rsvp.sum_ite_eq_filter_sum]
  simp [Rsvp.initStats]

/-- C7: every full-château ("complete") counter is bounded by the
corresponding general château counter, since the guests counted for
`complete` (type `full` only) are among those counted for `chateau`
(type `full` or `partial-chateau`) and both inspect the château answer. -/
theorem complete_counters_le_chateau (invs : List Rsvp.InvitationData) :
    (Rsvp.calculateStats invs).complete.accepted ≤ (Rsvp.calculateStats invs).chateau.accepted
    ∧ (Rsvp.calculateStats invs).complete.refused ≤ (Rsvp.calculateStats invs).chateau.refused
    ∧ (Rsvp.calculateStats invs).complete.total ≤ (Rsvp.calculateStats invs).chateau.total := by
  simp only [Rsvp.calculateStats, Rsvp.foldInvs_complete, Rsvp.foldInvs_chateau,
    Rsvp.initStats]
  refine ⟨?_, ?_, ?_⟩ <;>
  · simp only [Nat.zero_add]
    apply List.countP_mono_left
    intro p hp hdec
    revert hdec
    simp only [decide_eq_true_eq]
    tauto

namespace Rsvp

theorem detailsOfInvites_length (t : DetailType) (st : DetailStatus)
    (typ : Option String) (nom : Option String) (gs : List Invite) :
    (detailsOfInvites t st typ nom gs).length = gs.countP (detailInclude t st typ) := by
  induction gs with
  | nil => rfl
  | cons g gs ih =>
    by_cases h : detailInclude t st typ g <;>
      simp [detailsOfInvites, List.countP_cons, h, ih]

theorem getStatsDetails_length (t : DetailType) (st : DetailStatus)
    (invs : List InvitationData) :
    (getStatsDetails t st invs).length =
      (guestPairs invs).countP (fun p => detailInclude t st p.1 p.2) := by
  induction invs with
  | nil => rfl
  | cons inv invs ih =>
    simp [getStatsDetails, guestPairs_cons, List.countP_append, List.countP_map,
      Function.comp_def, detailsOfInvites_length, ih]

theorem detailInclude_mairie_accepted (typ : Option String) (g : Invite) :
    detailInclude DetailType.mairie DetailStatus.accepted typ g
      = decide ((typ = some "full" ∨ typ = some "partial-mairie") ∧ g.mairie = some true) := by
  simp [detailInclude]

theorem detailInclude_mairie_refused (typ : Option String) (g : Invite) :
    detailInclude DetailType.mairie DetailStatus.refused typ g
      = decide ((typ = some "full" ∨ typ = some "partial-mairie") ∧ g.mairie = some false) := by
  simp [detailInclude]

theorem detailInclude_chateau_accepted (typ : Option String) (g : Invite) :
    detailInclude DetailType.chateau DetailStatus.accepted typ g
      = decide ((typ = some "full" ∨ typ = some "partial-chateau") ∧ g.chateau = some true) := by
  simp [detailInclude]

theorem detailInclude_chateau_refused (typ : Option String) (g : Invite) :
    detailInclude DetailType.chateau DetailStatus.refused typ g
      = decide ((typ = some "full" ∨ typ = some "partial-chateau") ∧ g.chateau = some false) := by
  simp [detailInclude]

theorem getAccommodationDetails_sum (invs : List InvitationData) :
    ((getAccommodationDetails invs).map (fun a => a.nombre)).sum =
      (invs.map (fun inv =>
        if inv.hebergement = some true then hebNombreOrZero inv.herbergement_nombre
        else 0)).sum := by
  induction invs with
  | nil => rfl
  | cons inv invs ih =>
    by_cases hb : inv.hebergement = some true <;>
      simp [getAccommodationDetails, hb, ih]

end Rsvp

/-- C8: the detail queries agree with the counters computed from the same
snapshot: for each category in {mairie, château} and status in
{accepted, refused}, the guest detail list has exactly the counter's
length, and the headcounts in the accommodation detail list sum to the
aggregator's accommodation total. -/
theorem details_consistent_with_counters (invs : List Rsvp.InvitationData) :
    ((Rsvp.getStatsDetails Rsvp.DetailType.mairie Rsvp.DetailStatus.accepted invs).length
        = (Rsvp.calculateStats invs).mairie.accepted)
    ∧ ((Rsvp.getStatsDetails Rsvp.DetailType.mairie Rsvp.DetailStatus.refused invs).length
        = (Rsvp.calculateStats invs).mairie.refused)
    ∧ ((Rsvp.getStatsDetails Rsvp.DetailType.chateau Rsvp.DetailStatus.accepted invs).length
        = (Rsvp.calculateStats invs).chateau.accepted)
    ∧ ((Rsvp.getStatsDetails Rsvp.DetailType.chateau Rsvp.DetailStatus.refused invs).length
        = (Rsvp.calculateStats invs).chateau.refused)
    ∧ (((Rsvp.getAccommodationDetails invs).map (fun a => a.nombre)).sum
        = (Rsvp.calculateStats invs).accommodation) := by
  refine ⟨?_, ?_, ?_, ?_, ?_⟩
  · rw [Rsvp.getStatsDetails_length]
    simp only [Rsvp.detailInclude_mairie_accepted]
    simp [Rsvp.calculateStats, Rsvp.foldInvs_mairie, Rsvp.initStats]
  · rw [Rsvp.getStatsDetails_length]
    simp only [Rsvp.detailInclude_mairie_refused]
    simp [Rsvp.calculateStats, Rsvp.foldInvs_mairie, Rsvp.initStats]
  · rw [Rsvp.getStatsDetails_length]
    simp only [Rsvp.detailInclude_chateau_accepted]
    simp [Rsvp.calculateStats, Rsvp.foldInvs_chateau, Rsvp.initStats]
  · rw [Rsvp.getStatsDetails_length]
    simp only [Rsvp.detailInclude_chateau_refused]
    simp [Rsvp.calculateStats, Rsvp.foldInvs_chateau, Rsvp.initStats]
  · rw [Rsvp.getAccommodationDetails_sum]
    simp [Rsvp.calculateStats, Rsvp.foldInvs_accommodation, Rsvp.initStats]

/-- C9: the endpoint's response is fully determined by the store's reported
outcome: on a store error it is HTTP 500 with the raw store message
verbatim in the body, otherwise it is HTTP 200 with `{ ok: true }`; no
other outcome exists and the handler never retries (one store call, one
response). -/
theorem postRsvp_response (hashFn : String → String) (table : List Rsvp.StoredInvite)
    (body : Rsvp.RSVPBody) (now : String) :
    (∀ e, (Rsvp.postRsvp hashFn table body now (some e)).2
        = { status := 500, body := Rsvp.ApiBody.errorBody e.message })
    ∧ ((Rsvp.postRsvp hashFn table body now none).2
        = { status := 200, body := Rsvp.ApiBody.okBody })
    ∧ (∀ r, (∃ e, r = some e ∧ (Rsvp.postRsvp hashFn table body now r).2
            = { status := 500, body := Rsvp.ApiBody.errorBody e.message })
        ∨ (r = none ∧ (Rsvp.postRsvp hashFn table body now r).2
            = { status := 200, body := Rsvp.ApiBody.okBody })) := by
  refine ⟨fun e => rfl, rfl, fun r => ?_⟩
  cases r with
  | none => exact Or.inr ⟨rfl, rfl⟩
  | some e => exact Or.inl ⟨e, rfl, rfl⟩

/-- C10 (implicit): the endpoint validates nothing and checks nothing
exists: whenever the store reports no error it answers `{ ok: true }` for
every table and every body — including a body whose token digest matches no
stored row and a body omitting every answer field — so a caller cannot
distinguish "nothing matched" from a successful submission; and every row
whose token hash matches the digest gets its `confirmed_at` overwritten
with the current time. -/
theorem postRsvp_no_validation (hashFn : String → String) (table : List Rsvp.StoredInvite)
    (body : Rsvp.RSVPBody) (now : String) :
    ((Rsvp.postRsvp hashFn table body now none).2
        = { status := 200, body := Rsvp.ApiBody.okBody })
    ∧ (∀ r ∈ (Rsvp.postRsvp hashFn table body now none).1,
        r.token_hash = hashFn body.token → r.confirmed_at = some now)
    ∧ (∀ (table' : List Rsvp.StoredInvite) (body' : Rsvp.RSVPBody) (now' : String),
        (Rsvp.postRsvp hashFn table body now none).2
          = (Rsvp.postRsvp hashFn table' body' now' none).2) := by
  refine ⟨rfl, ?_, fun table' body' now' => rfl⟩
  intro r hr hhash
  simp only [Rsvp.postRsvp, Rsvp.runUpdate, List.mem_map] at hr
  obtain ⟨r0, hr0, hmap⟩ := hr
  by_cases hm : r0.token_hash = hashFn body.token
  · rw [if_pos hm] at hmap
    rw [← hmap]
    rfl
  · rw [if_neg hm] at hmap
    rw [← hmap] at hhash
    exact absurd hhash hm

/-- Witness for C10: the endpoint answers `{ ok: true }` on a body omitting
every answer field, and stamps the matched row's `confirmed_at`. -/
theorem postRsvp_no_validation_witness :
    ((Rsvp.postRsvp (fun _ => "HH") [Rsvp.storedRow] Rsvp.emptyBody "2026-10-11" none).2
        = { status := 200, body := Rsvp.ApiBody.okBody })
    ∧ (Rsvp.applyPatch Rsvp.emptyBody "2026-10-11" Rsvp.storedRow).confirmed_at
        = some "2026-10-11" := by
  constructor
  · exact (postRsvp_no_validation (fun _ => "HH") [Rsvp.storedRow] Rsvp.emptyBody
      "2026-10-11").1
  · exact (postRsvp_no_validation (fun _ => "HH") [Rsvp.storedRow] Rsvp.emptyBody
      "2026-10-11").2.1 _ (by decide) (by decide)
